import Mathlib

/-!
# alertmanager2kafka: the startup path of `main.go`

A shallow embedding of `src/main.go`: the process `main` is a computation that
records the calls it makes to its collaborators (argument parser, logger,
SCRAM library, exporter, HTTP server) in a trace and either returns or halts
the process.  The two `CallerPrettyfier` closures and the `/healthz` handler
are pure functions.

Go strings are embedded as Lean strings; Go `error` values as their message.
-/

namespace Alertmanager2Kafka

/-! ## Configuration (`config.Opts`, as far as `main.go` reads it) -/

/-- The `Logger` group of `config.Opts`. -/
structure LoggerOpts where
  Debug : Bool
  Verbose : Bool
  LogJson : Bool
  deriving DecidableEq, Repr

/-- The `Kafka` group of `config.Opts`. -/
structure KafkaOpts where
  Host : String
  Topic : String
  SSLCert : String
  SSLKey : String
  SSLCACert : String
  Username : String
  Password : String
  deriving DecidableEq, Repr

/-- The fields of `config.Opts` that `main.go` reads. -/
structure Opts where
  Logger : LoggerOpts
  Kafka : KafkaOpts
  ServerBind : String
  deriving DecidableEq, Repr

/-! ## Values handed to the collaborators -/

/-- The struct `KafkaSSLConfig`, with the four fields `main` assigns; the Go
zero value `KafkaSSLConfig{}` is `false` and three empty strings. -/
structure KafkaSSLConfig where
  EnableSSL : Bool
  CertFile : String
  KeyFile : String
  CACertFile : String
  deriving DecidableEq, Repr

/-- The Go zero value `&KafkaSSLConfig{}`. -/
def KafkaSSLConfig.zero : KafkaSSLConfig :=
  { EnableSSL := false, CertFile := "", KeyFile := "", CACertFile := "" }

/-- The `scram.Algorithm` values of kafka-go. -/
inductive Algorithm where
  | SHA256
  | SHA512
  deriving DecidableEq, Repr

/-- A `sasl.Mechanism` returned by `scram.Mechanism`; the value is not
inspected by `main`, only stored in the dialer. -/
structure Mechanism where
  handle : Nat
  deriving DecidableEq, Repr

/-- One second as a `time.Duration` (nanoseconds). -/
def timeSecond : Nat := 1000000000

/-- The fields of `kafka.Dialer` that `main` sets; every other field keeps its
zero value. -/
structure Dialer where
  Timeout : Nat
  DualStack : Bool
  SASLMechanism : Option Mechanism
  deriving DecidableEq, Repr

/-- A `*kafka.Dialer`: either the package-level pointer `kafka.DefaultDialer`
or a pointer to a dialer allocated by `main`. -/
inductive DialerRef where
  | DefaultDialer
  | new (d : Dialer)
  deriving DecidableEq, Repr

/-- The dialer a `*kafka.Dialer` points to; `kafka.DefaultDialer` is
`&Dialer{Timeout: 10 * time.Second, DualStack: true}` in kafka-go. -/
def DialerRef.deref : DialerRef → Dialer
  | .DefaultDialer => { Timeout := 10 * timeSecond, DualStack := true, SASLMechanism := none }
  | .new d => d

/-- The logrus levels `main.go` sets. -/
inductive LogLevel where
  | DebugLevel
  | TraceLevel
  deriving DecidableEq, Repr

/-- The two formatters `initArgparser` installs; each carries the
`CallerPrettyfier` closure written at that place in the source. -/
inductive Formatter where
  | TextFormatter
  | JSONFormatter (DisableTimestamp : Bool)
  deriving DecidableEq, Repr

/-- The handlers `startHttpServer` registers. -/
inductive Handler where
  | healthz
  | exporterHttpHandler
  | promhttpHandler
  deriving DecidableEq, Repr

/-- The `flags.ErrorType` values of go-flags. -/
inductive ErrorType where
  | ErrUnknown
  | ErrExpectedArgument
  | ErrUnknownFlag
  | ErrUnknownGroup
  | ErrMarshal
  | ErrHelp
  | ErrNoArgumentForBool
  | ErrRequired
  | ErrShortNameTooLong
  | ErrDuplicatedFlag
  | ErrTag
  | ErrCommandRequired
  | ErrUnknownCommand
  | ErrInvalidChoice
  | ErrInvalidTag
  deriving DecidableEq, Repr

/-- A non-nil error returned by `argparser.Parse()`: a `*flags.Error` with its
type, or an error of another dynamic type. -/
inductive ParseError where
  | flagsError (type : ErrorType)
  | other (msg : String)
  deriving DecidableEq, Repr

/-! ## Effects and processes -/

/-- The calls `main.go` makes to its collaborators, with their arguments. -/
inductive Effect where
  | argparserParse
  | fmtPrintln
  | argparserWriteHelp
  | logSetLevel (level : LogLevel)
  | logSetReportCaller (reportCaller : Bool)
  | logSetFormatter (formatter : Formatter)
  | logInfo (msg : String)
  | logInfof (format : String) (args : List String)
  | logFatalf (format : String) (args : List String)
  | logFatal (args : List String)
  | exporterInit
  | scramMechanism (algo : Algorithm) (username password : String)
  | ConnectKafka (host topic : String) (sslConfig : KafkaSSLConfig) (dialer : DialerRef)
  | HandleFunc (pattern : String) (handler : Handler)
  | Handle (pattern : String) (handler : Handler)
  | ListenAndServe (addr : String)
  | kafkaWriterClose
  deriving DecidableEq, Repr

/-- How a process stops without returning from `main`: `os.Exit(code)`, or a
call that never returns (a listener that serves forever). -/
inductive Halt where
  | exit (code : Nat)
  | blocked
  deriving DecidableEq, Repr

/-- The result of a piece of code: it returned a value, or the process halted
inside it. -/
inductive Step (α : Type) where
  | done (a : α)
  | halt (h : Halt)
  deriving DecidableEq, Repr

/-- A piece of code run to its end: the effects it made, oldest first, and how
it ended. -/
structure Proc (α : Type) where
  trace : List Effect
  result : Step α

namespace Proc

/-- Return without an effect. -/
def ret {α : Type} (a : α) : Proc α := ⟨[], .done a⟩

/-- Sequencing: once the process has halted nothing that follows runs. -/
def andThen {α β : Type} (m : Proc α) (f : α → Proc β) : Proc β :=
  match m.result with
  | .done a => ⟨m.trace ++ (f a).trace, (f a).result⟩
  | .halt h => ⟨m.trace, .halt h⟩

instance : Monad Proc where
  pure := ret
  bind := andThen

/-- One call that returns. -/
def emit (e : Effect) : Proc Unit := ⟨[e], .done ()⟩

/-- The call `os.Exit(code)`: the process ends at once, deferred calls do not run. -/
def osExit {α : Type} (code : Nat) : Proc α := ⟨[], .halt (.exit code)⟩

/-- The Go statement `defer d` followed by the rest of the function body:
the call `d` runs when the body returns, and does not run when the process
halts inside the body. -/
def defer {α : Type} (d : Proc Unit) (rest : Proc α) : Proc α :=
  rest >>= fun a => d >>= fun _ => pure a

end Proc

open Proc

/-- What the process `main` is run against: the outcome of argument parsing
and the option values it leaves in the global `opts`, and the answers of the
libraries `main` calls. -/
structure Env where
  /-- the error returned by `argparser.Parse()`, `none` for `nil` -/
  parseErr : Option ParseError
  /-- the global `opts` after `argparser.Parse()` -/
  opts : Opts
  /-- `runtime.Version()` -/
  runtimeVersion : String
  /-- `string(opts.GetJson())` -/
  optsJson : String
  /-- `scram.Mechanism(algo, username, password)`: the mechanism or the error -/
  scramMechanism : Algorithm → String → String → Except String Mechanism
  /-- `http.ListenAndServe(addr, nil)`: the (always non-nil) error it returns,
  or `none` when it never returns -/
  ListenAndServe : String → Option String

/-- The constant `Author`. -/
def Author : String := "Filip Pytloun"

/-- The variable `gitCommit`. -/
def gitCommit : String := "<unknown>"

/-- The variable `gitTag`. -/
def gitTag : String := "<unknown>"

/-- The call `log.Fatalf(format, args...)`: logs, then exits with status 1. -/
def logFatalf {α : Type} (format : String) (args : List String) : Proc α := do
  emit (.logFatalf format args)
  osExit 1

/-- The call `log.Fatal(args...)`: logs, then exits with status 1. -/
def logFatal {α : Type} (args : List String) : Proc α := do
  emit (.logFatal args)
  osExit 1

/-- The function `initArgparser`, `main.go` lines 76 to 121. -/
def initArgparser (env : Env) : Proc Unit := do
  emit .argparserParse
  match env.parseErr with
  | some err =>
    match err with
    | .flagsError .ErrHelp => osExit 0
    | _ => do
      emit .fmtPrintln
      emit .argparserWriteHelp
      osExit 1
  | none => pure ()
  if env.opts.Logger.Verbose then
    emit (.logSetLevel .DebugLevel)
  if env.opts.Logger.Debug then do
    emit (.logSetReportCaller true)
    emit (.logSetLevel .TraceLevel)
    emit (.logSetFormatter .TextFormatter)
  if env.opts.Logger.LogJson then do
    emit (.logSetReportCaller true)
    emit (.logSetFormatter (.JSONFormatter false))

/-- The function `startHttpServer`, `main.go` lines 124 to 134. -/
def startHttpServer (env : Env) : Proc Unit := do
  emit (.HandleFunc "/healthz" .healthz)
  emit (.HandleFunc "/webhook" .exporterHttpHandler)
  emit (.Handle "/metrics" .promhttpHandler)
  emit (.ListenAndServe env.opts.ServerBind)
  match env.ListenAndServe env.opts.ServerBind with
  | some err => logFatal [err]
  | none => ⟨[], .halt .blocked⟩

/-- The function `main`, `main.go` lines 33 to 73.  The exporter methods
`Init` and `ConnectKafka` are recorded as calls that return. -/
def main (env : Env) : Proc Unit := do
  initArgparser env
  emit (.logInfof "starting alertmanager2kafka v%s (%s; %s; by %v)"
    [gitTag, gitCommit, env.runtimeVersion, Author])
  emit (.logInfo env.optsJson)
  emit (.logInfof "init exporter" [])
  emit .exporterInit
  let sslConfig : KafkaSSLConfig :=
    if env.opts.Kafka.SSLKey ≠ "" then
      { EnableSSL := true
        CertFile := env.opts.Kafka.SSLCert
        KeyFile := env.opts.Kafka.SSLKey
        CACertFile := env.opts.Kafka.SSLCACert }
    else
      { KafkaSSLConfig.zero with EnableSSL := false }
  let dialer ←
    if env.opts.Kafka.Username ≠ "" ∧ env.opts.Kafka.Password ≠ "" then do
      emit (.scramMechanism .SHA256 env.opts.Kafka.Username env.opts.Kafka.Password)
      match env.scramMechanism .SHA256 env.opts.Kafka.Username env.opts.Kafka.Password with
      | .error err => logFatalf "create SASL mechanism err: %s" [err]
      | .ok mechanism =>
        pure (DialerRef.new
          { Timeout := 10 * timeSecond, DualStack := true, SASLMechanism := some mechanism })
    else
      pure DialerRef.DefaultDialer
  emit (.ConnectKafka env.opts.Kafka.Host env.opts.Kafka.Topic sslConfig dialer)
  Proc.defer (emit .kafkaWriterClose) do
    emit (.logInfof "starting http server on %s" [env.opts.ServerBind])
    startHttpServer env

/-! ## The `CallerPrettyfier` closures -/

/-- The fields of `runtime.Frame` the prettyfier reads. -/
structure Frame where
  Function : String
  File : String
  Line : Int
  deriving DecidableEq, Repr

/-- Splitting a character sequence at every occurrence of `sep`: the pieces
between the separators, in order, empty pieces included. -/
def splitChars (sep : Char) : List Char → List (List Char)
  | [] => [[]]
  | c :: cs =>
    if c = sep then [] :: splitChars sep cs
    else
      match splitChars sep cs with
      | [] => [[c]]
      | piece :: pieces => (c :: piece) :: pieces

/-- The Go library call `strings.Split(s, sep)` for a separator of one character. -/
def stringsSplit (s : String) (sep : Char) : List String :=
  (splitChars sep s.data).map String.mk

/-- The Go library call `path.Base(path)`: the last element of the path, after
trailing slashes are removed; `.` for the empty path and `/` for a path of
slashes only. -/
def pathBase (path : String) : String :=
  if path = "" then "."
  else
    let stripped := (path.data.reverse.dropWhile (fun c => c == '/')).reverse
    let last := (stripped.reverse.takeWhile (fun c => c != '/')).reverse
    if last = [] then "/" else String.mk last

/-- The Go library call `fmt.Sprintf("%s:%d", s, n)`. -/
def sprintfFileLine (s : String) (n : Int) : String :=
  s ++ ":" ++ toString n

/-- The slice index expression `s[i]`: `none` stands for the run-time panic
"index out of range". -/
def sliceIndex (s : List String) (i : Int) : Option String :=
  if 0 ≤ i ∧ i < s.length then s[i.toNat]? else none

/-- The closure given as `CallerPrettyfier` to the `log.TextFormatter`,
`main.go` lines 101 to 105. -/
def CallerPrettyfierText (f : Frame) : Option (String × String) :=
  let s := stringsSplit f.Function '.'
  match sliceIndex s ((s.length : Int) - 1) with
  | none => none
  | some funcName => some (funcName, sprintfFileLine (pathBase f.File) f.Line)

/-- The closure given as `CallerPrettyfier` to the `log.JSONFormatter`,
`main.go` lines 114 to 118. -/
def CallerPrettyfierJSON (f : Frame) : Option (String × String) :=
  let s := stringsSplit f.Function '.'
  match sliceIndex s ((s.length : Int) - 1) with
  | none => none
  | some funcName => some (funcName, sprintfFileLine (pathBase f.File) f.Line)

/-- The `CallerPrettyfier` field of an installed formatter. -/
def Formatter.CallerPrettyfier : Formatter → Frame → Option (String × String)
  | .TextFormatter => CallerPrettyfierText
  | .JSONFormatter _ => CallerPrettyfierJSON

/-! ## The `/healthz` handler -/

/-- An incoming `*http.Request`, as far as a handler can tell requests apart. -/
structure Request where
  Method : String
  URL : String
  Header : List (String × String)
  Body : String
  deriving DecidableEq, Repr

/-- The `http.ResponseWriter` a handler is given: the error its `Write`
returns for the data written (`none` for `nil`). -/
structure ResponseWriter where
  Write : String → Option String

/-- What a handler does: writes to the response, sets a status, logs. -/
inductive HandlerEffect where
  | Write (data : String)
  | WriteHeader (statusCode : Nat)
  | logError (err : String)
  deriving DecidableEq, Repr

/-- The closure registered on `/healthz`, `main.go` lines 126 to 130. -/
def healthzHandler (w : ResponseWriter) (_r : Request) : List HandlerEffect :=
  match w.Write "Ok" with
  | some err => [.Write "Ok", .logError err]
  | none => [.Write "Ok"]

/-- The closure behind a registered handler tag, where `main.go` defines it. -/
def Handler.closure : Handler → Option (ResponseWriter → Request → List HandlerEffect)
  | .healthz => some healthzHandler
  | .exporterHttpHandler => none
  | .promhttpHandler => none

/-- The body a handler wrote: the data of its `Write` calls, in order. -/
def bodyWritten : List HandlerEffect → String
  | [] => ""
  | .Write data :: es => data ++ bodyWritten es
  | _ :: es => bodyWritten es

/-- The status codes a handler set with `WriteHeader`, in order. -/
def statusCodesSet : List HandlerEffect → List Nat
  | [] => []
  | .WriteHeader code :: es => code :: statusCodesSet es
  | _ :: es => statusCodesSet es

/-! ## Observations on a trace -/

/-- The arguments of one `ConnectKafka` call. -/
structure ConnectCall where
  host : String
  topic : String
  sslConfig : KafkaSSLConfig
  dialer : DialerRef
  deriving DecidableEq, Repr

/-- The `ConnectKafka` call an effect is, if it is one. -/
def Effect.connectCall? : Effect → Option ConnectCall
  | .ConnectKafka host topic sslConfig dialer => some ⟨host, topic, sslConfig, dialer⟩
  | _ => none

/-- The `ConnectKafka` calls of a trace, in order. -/
def connectCalls (t : List Effect) : List ConnectCall :=
  t.filterMap Effect.connectCall?

/-- The effects that belong to serving HTTP: registering a handler and
starting the listener. -/
def Effect.isServing : Effect → Bool
  | .HandleFunc _ _ => true
  | .Handle _ _ => true
  | .ListenAndServe _ => true
  | _ => false

/-- The calls to `scram.Mechanism`. -/
def Effect.isScram : Effect → Bool
  | .scramMechanism _ _ _ => true
  | _ => false

/-! ## The shape of the trace of `main` -/

/-- The logger calls of `initArgparser` after a successful parse. -/
def loggerSetup (l : LoggerOpts) : List Effect :=
  (if l.Verbose then [Effect.logSetLevel .DebugLevel] else []) ++
  (if l.Debug then
    [Effect.logSetReportCaller true, .logSetLevel .TraceLevel, .logSetFormatter .TextFormatter]
   else []) ++
  (if l.LogJson then [Effect.logSetReportCaller true, .logSetFormatter (.JSONFormatter false)]
   else [])

/-- The calls of `main` before the security set-up, after a successful parse. -/
def startupCalls (env : Env) : List Effect :=
  .argparserParse :: loggerSetup env.opts.Logger ++
    [.logInfof "starting alertmanager2kafka v%s (%s; %s; by %v)"
        [gitTag, gitCommit, env.runtimeVersion, Author],
     .logInfo env.optsJson, .logInfof "init exporter" [], .exporterInit]

/-- The calls of `main` after `ConnectKafka`. -/
def servingCalls (env : Env) : List Effect :=
  [.logInfof "starting http server on %s" [env.opts.ServerBind],
   .HandleFunc "/healthz" .healthz, .HandleFunc "/webhook" .exporterHttpHandler,
   .Handle "/metrics" .promhttpHandler, .ListenAndServe env.opts.ServerBind] ++
  (match env.ListenAndServe env.opts.ServerBind with
   | some err => [.logFatal [err]]
   | none => [])

/-- How `main` ends once the listener has been started. -/
def servingHalt (env : Env) : Halt :=
  match env.ListenAndServe env.opts.ServerBind with
  | some _ => .exit 1
  | none => .blocked

/-- The SSL configuration `main` builds in lines 43 to 51. -/
def sslConfigBuilt (k : KafkaOpts) : KafkaSSLConfig :=
  if k.SSLKey ≠ "" then
    { EnableSSL := true, CertFile := k.SSLCert, KeyFile := k.SSLKey, CACertFile := k.SSLCACert }
  else
    { EnableSSL := false, CertFile := "", KeyFile := "", CACertFile := "" }

/-- The dialer `main` allocates in lines 60 to 64 for a mechanism. -/
def saslDialer (mechanism : Mechanism) : DialerRef :=
  .new { Timeout := 10 * timeSecond, DualStack := true, SASLMechanism := some mechanism }

/-! ## Sample environments -/

/-- A mechanism as `scram.Mechanism` would return it. -/
def sampleMechanism : Mechanism := ⟨7⟩

/-- A sample environment around the given Kafka options: parsing succeeds,
`scram.Mechanism` succeeds, and the listener fails to bind. -/
def sampleEnv (k : KafkaOpts) : Env :=
  { parseErr := none
    opts := { Logger := { Debug := false, Verbose := false, LogJson := false }
              Kafka := k
              ServerBind := ":9097" }
    runtimeVersion := "go1.20"
    optsJson := "\x7b\x7d"
    scramMechanism := fun _ _ _ => .ok sampleMechanism
    ListenAndServe := fun _ => some "listen tcp :9097: bind: address already in use" }

/-- No security configured at all. -/
def kafkaPlain : KafkaOpts :=
  { Host := "broker:9092", Topic := "alerts", SSLCert := "", SSLKey := "", SSLCACert := "",
    Username := "", Password := "" }

/-- A client certificate configured, without a key. -/
def kafkaCertOnly : KafkaOpts := { kafkaPlain with SSLCert := "client.pem" }

/-- Certificate, key and CA configured. -/
def kafkaTLS : KafkaOpts :=
  { kafkaPlain with SSLCert := "client.pem", SSLKey := "client.key", SSLCACert := "ca.pem" }

/-- Username and password configured. -/
def kafkaSASL : KafkaOpts := { kafkaPlain with Username := "alice", Password := "secret" }

/-- Certificate, key, CA, username and password all configured. -/
def kafkaTLSAndSASL : KafkaOpts := { kafkaTLS with Username := "alice", Password := "secret" }

/-- The sample environment with a `scram.Mechanism` that fails. -/
def sampleEnvScramFails (k : KafkaOpts) : Env :=
  { sampleEnv k with scramMechanism := fun _ _ _ => .error "invalid username" }

/-! ## Lemmas on processes and on the trace of `main` -/

theorem bind_done {α β : Type} (t : List Effect) (a : α) (f : α → Proc β) :
    ((⟨t, .done a⟩ : Proc α) >>= f) = ⟨t ++ (f a).trace, (f a).result⟩ := rfl

theorem bind_halt {α β : Type} (t : List Effect) (h : Halt) (f : α → Proc β) :
    ((⟨t, .halt h⟩ : Proc α) >>= f) = ⟨t, .halt h⟩ := rfl

theorem initArgparser_ok (env : Env) (h : env.parseErr = none) :
    initArgparser env = ⟨.argparserParse :: loggerSetup env.opts.Logger, .done ()⟩ := by
  unfold initArgparser loggerSetup
  rw [h]
  cases env.opts.Logger.Verbose <;> cases env.opts.Logger.Debug <;>
    cases env.opts.Logger.LogJson <;> rfl

theorem initArgparser_err (env : Env) (err : ParseError) (h : env.parseErr = some err) :
    initArgparser env =
      if err = .flagsError .ErrHelp then ⟨[.argparserParse], .halt (.exit 0)⟩
      else ⟨[.argparserParse, .fmtPrintln, .argparserWriteHelp], .halt (.exit 1)⟩ := by
  unfold initArgparser
  rw [h]
  rcases err with t | m
  · cases t <;> rfl
  · rfl

/-- When argument parsing fails, `main` stops inside `initArgparser`. -/
theorem main_parse_err (env : Env) (err : ParseError) (h : env.parseErr = some err) :
    main env =
      if err = .flagsError .ErrHelp then ⟨[.argparserParse], .halt (.exit 0)⟩
      else ⟨[.argparserParse, .fmtPrintln, .argparserWriteHelp], .halt (.exit 1)⟩ := by
  unfold main
  rw [initArgparser_err env err h]
  split <;> rfl

/-- The run of `main` when no complete username and password pair is configured. -/
theorem main_no_credentials (env : Env) (h : env.parseErr = none)
    (hc : ¬ (env.opts.Kafka.Username ≠ "" ∧ env.opts.Kafka.Password ≠ "")) :
    main env =
      ⟨startupCalls env ++
        .ConnectKafka env.opts.Kafka.Host env.opts.Kafka.Topic (sslConfigBuilt env.opts.Kafka)
          .DefaultDialer :: servingCalls env,
       .halt (servingHalt env)⟩ := by
  unfold main
  rw [initArgparser_ok env h, if_neg hc]
  unfold startHttpServer servingCalls servingHalt startupCalls sslConfigBuilt
  cases env.ListenAndServe env.opts.ServerBind <;>
    simp [bind_done, bind_halt, emit, Proc.defer, logFatal, osExit, pure, ret, KafkaSSLConfig.zero]

/-- The run of `main` when `scram.Mechanism` returns a mechanism. -/
theorem main_scram_ok (env : Env) (mechanism : Mechanism) (h : env.parseErr = none)
    (hc : env.opts.Kafka.Username ≠ "" ∧ env.opts.Kafka.Password ≠ "")
    (hm : env.scramMechanism .SHA256 env.opts.Kafka.Username env.opts.Kafka.Password
      = .ok mechanism) :
    main env =
      ⟨startupCalls env ++
        .scramMechanism .SHA256 env.opts.Kafka.Username env.opts.Kafka.Password ::
        .ConnectKafka env.opts.Kafka.Host env.opts.Kafka.Topic (sslConfigBuilt env.opts.Kafka)
          (saslDialer mechanism) :: servingCalls env,
       .halt (servingHalt env)⟩ := by
  unfold main
  rw [initArgparser_ok env h, if_pos hc, hm]
  unfold startHttpServer servingCalls servingHalt startupCalls sslConfigBuilt saslDialer
  cases env.ListenAndServe env.opts.ServerBind <;>
    simp [bind_done, bind_halt, emit, Proc.defer, logFatal, osExit, pure, ret, KafkaSSLConfig.zero]

/-- The run of `main` when `scram.Mechanism` returns an error. -/
theorem main_scram_err (env : Env) (err : String) (h : env.parseErr = none)
    (hc : env.opts.Kafka.Username ≠ "" ∧ env.opts.Kafka.Password ≠ "")
    (hm : env.scramMechanism .SHA256 env.opts.Kafka.Username env.opts.Kafka.Password
      = .error err) :
    main env =
      ⟨startupCalls env ++
        [.scramMechanism .SHA256 env.opts.Kafka.Username env.opts.Kafka.Password,
         .logFatalf "create SASL mechanism err: %s" [err]],
       .halt (.exit 1)⟩ := by
  unfold main
  rw [initArgparser_ok env h, if_pos hc, hm]
  unfold startupCalls
  simp [bind_done, bind_halt, emit, logFatalf, osExit]

theorem connectCalls_append (a b : List Effect) :
    connectCalls (a ++ b) = connectCalls a ++ connectCalls b := by
  simp [connectCalls]

theorem connectCalls_loggerSetup (l : LoggerOpts) : connectCalls (loggerSetup l) = [] := by
  unfold loggerSetup
  cases l.Verbose <;> cases l.Debug <;> cases l.LogJson <;> rfl

theorem connectCalls_cons (e : Effect) (t : List Effect) :
    connectCalls (e :: t) =
      (match e.connectCall? with
       | some c => [c]
       | none => []) ++ connectCalls t := by
  unfold connectCalls
  rw [List.filterMap_cons]
  cases e.connectCall? <;> rfl

theorem connectCalls_nil : connectCalls [] = [] := rfl

theorem connectCalls_startupCalls (env : Env) : connectCalls (startupCalls env) = [] := by
  simp [startupCalls, connectCalls_append, connectCalls_cons, connectCalls_nil,
    connectCalls_loggerSetup, Effect.connectCall?]

theorem connectCalls_servingCalls (env : Env) : connectCalls (servingCalls env) = [] := by
  unfold servingCalls
  cases env.ListenAndServe env.opts.ServerBind <;> rfl

/-- The `ConnectKafka` calls of a run of `main`: none when parsing or the SASL
set-up fails, else one. -/
theorem connectCalls_main (env : Env) :
    connectCalls (main env).trace =
      match env.parseErr with
      | some _ => []
      | none =>
        if env.opts.Kafka.Username ≠ "" ∧ env.opts.Kafka.Password ≠ "" then
          match env.scramMechanism .SHA256 env.opts.Kafka.Username env.opts.Kafka.Password with
          | .error _ => []
          | .ok mechanism =>
            [⟨env.opts.Kafka.Host, env.opts.Kafka.Topic, sslConfigBuilt env.opts.Kafka,
              saslDialer mechanism⟩]
        else
          [⟨env.opts.Kafka.Host, env.opts.Kafka.Topic, sslConfigBuilt env.opts.Kafka,
            .DefaultDialer⟩] := by
  cases h : env.parseErr with
  | some err =>
    rw [main_parse_err env err h]
    split <;> rfl
  | none =>
    by_cases hc : env.opts.Kafka.Username ≠ "" ∧ env.opts.Kafka.Password ≠ ""
    · cases hm : env.scramMechanism .SHA256 env.opts.Kafka.Username env.opts.Kafka.Password with
      | error err =>
        simp [main_scram_err env err h hc hm, hc, connectCalls_append, connectCalls_cons,
          connectCalls_nil, connectCalls_startupCalls, Effect.connectCall?]
      | ok mechanism =>
        simp [main_scram_ok env mechanism h hc hm, hc, connectCalls_append, connectCalls_cons,
          connectCalls_startupCalls, connectCalls_servingCalls, Effect.connectCall?]
    · simp only [main_no_credentials env h hc, if_neg hc]
      simp [connectCalls_append, connectCalls_cons,
        connectCalls_startupCalls, connectCalls_servingCalls, Effect.connectCall?]

theorem loggerSetup_mem (l : LoggerOpts) (e : Effect) (h : e ∈ loggerSetup l) :
    e = .logSetLevel .DebugLevel ∨ e = .logSetReportCaller true ∨ e = .logSetLevel .TraceLevel ∨
      e = .logSetFormatter .TextFormatter ∨ e = .logSetFormatter (.JSONFormatter false) := by
  unfold loggerSetup at h
  cases l.Verbose <;> cases l.Debug <;> cases l.LogJson <;> simp at h <;> tauto

theorem startupCalls_not_serving (env : Env) (e : Effect) (h : e ∈ startupCalls env) :
    e.isServing = false ∧ e.isScram = false ∧ e ≠ .kafkaWriterClose := by
  unfold startupCalls at h
  simp only [List.mem_append, List.mem_cons, List.mem_singleton, List.not_mem_nil,
    or_false] at h
  rcases h with (rfl | h) | rfl | rfl | rfl | rfl
  · simp [Effect.isServing, Effect.isScram]
  · rcases loggerSetup_mem _ _ h with rfl | rfl | rfl | rfl | rfl <;>
      simp [Effect.isServing, Effect.isScram]
  all_goals simp [Effect.isServing, Effect.isScram]

theorem servingCalls_not_scram (env : Env) (e : Effect) (h : e ∈ servingCalls env) :
    e.isScram = false ∧ e ≠ .kafkaWriterClose := by
  unfold servingCalls at h
  generalize env.ListenAndServe env.opts.ServerBind = r at h
  cases r <;>
    simp only [List.mem_append, List.mem_cons, List.mem_singleton, List.not_mem_nil,
      or_false] at h <;>
    casesm* _ ∨ _ <;> subst_vars <;> simp [Effect.isScram]

/-! ## Security-mode selection -/

/-- C1, as stated, fails: with a client certificate configured and no key
(`SSLCert = "client.pem"`, `SSLKey = ""`) certificate material is configured in
the sense of the claim, yet the one `ConnectKafka` call of `main` receives an
SSL configuration with `EnableSSL = false` and empty file names. -/
theorem tls_not_selected_for_cert_without_key :
    ((sampleEnv kafkaCertOnly).opts.Kafka.SSLCert ≠ "" ∨
      (sampleEnv kafkaCertOnly).opts.Kafka.SSLKey ≠ "") ∧
    connectCalls (main (sampleEnv kafkaCertOnly)).trace =
      [⟨"broker:9092", "alerts",
        { EnableSSL := false, CertFile := "", KeyFile := "", CACertFile := "" },
        .DefaultDialer⟩] := by
  decide

/-- C1, amended: whenever the client key is configured (`SSLKey` non-empty),
`main` selects TLS: the one `ConnectKafka` call receives an SSL configuration
with `EnableSSL = true` and `CertFile`, `KeyFile`, `CACertFile` equal to the
configured `SSLCert`, `SSLKey`, `SSLCACert`, whatever `Username` and `Password`
are, provided the call is reached (parsing succeeded and `scram.Mechanism`, if
called, returned a mechanism). -/
theorem tls_selected_when_key_configured (env : Env)
    (hparse : env.parseErr = none)
    (hkey : env.opts.Kafka.SSLKey ≠ "")
    (hscram : env.opts.Kafka.Username = "" ∨ env.opts.Kafka.Password = "" ∨
      ∃ mechanism, env.scramMechanism .SHA256 env.opts.Kafka.Username
        env.opts.Kafka.Password = .ok mechanism) :
    ∃ dialer, connectCalls (main env).trace =
      [⟨env.opts.Kafka.Host, env.opts.Kafka.Topic,
        { EnableSSL := true, CertFile := env.opts.Kafka.SSLCert,
          KeyFile := env.opts.Kafka.SSLKey, CACertFile := env.opts.Kafka.SSLCACert },
        dialer⟩] := by
  rw [connectCalls_main, hparse]
  by_cases hc : env.opts.Kafka.Username ≠ "" ∧ env.opts.Kafka.Password ≠ ""
  · rcases hscram with hu | hp | ⟨mechanism, hm⟩
    · exact absurd hu hc.1
    · exact absurd hp hc.2
    · exact ⟨saslDialer mechanism, by simp [hc, hm, sslConfigBuilt, hkey]⟩
  · exact ⟨.DefaultDialer, by simp only [if_neg hc, sslConfigBuilt, if_pos hkey]⟩

/-- C1, amended, at a sample configuration with certificate, key, CA, username
and password all set. -/
theorem tls_selected_when_key_configured_witness :
    ∃ dialer, connectCalls (main (sampleEnv kafkaTLSAndSASL)).trace =
      [⟨"broker:9092", "alerts",
        { EnableSSL := true, CertFile := "client.pem", KeyFile := "client.key",
          CACertFile := "ca.pem" },
        dialer⟩] :=
  tls_selected_when_key_configured (sampleEnv kafkaTLSAndSASL) rfl (by decide)
    (Or.inr (Or.inr ⟨sampleMechanism, rfl⟩))

/-- C2, as stated, fails: with certificate, key, username and password all
configured and `scram.Mechanism` succeeding, the dialer passed to
`ConnectKafka` is not `kafka.DefaultDialer`: it is a new dialer that carries
the SASL mechanism, next to an SSL configuration with `EnableSSL = true`. -/
theorem sasl_dialer_selected_with_certificate :
    ((sampleEnv kafkaTLSAndSASL).opts.Kafka.SSLCert ≠ "" ∧
      (sampleEnv kafkaTLSAndSASL).opts.Kafka.SSLKey ≠ "" ∧
      (sampleEnv kafkaTLSAndSASL).opts.Kafka.Username ≠ "" ∧
      (sampleEnv kafkaTLSAndSASL).opts.Kafka.Password ≠ "") ∧
    connectCalls (main (sampleEnv kafkaTLSAndSASL)).trace =
      [⟨"broker:9092", "alerts",
        { EnableSSL := true, CertFile := "client.pem", KeyFile := "client.key",
          CACertFile := "ca.pem" },
        .new { Timeout := 10000000000, DualStack := true,
               SASLMechanism := some sampleMechanism }⟩] ∧
    ∀ c ∈ connectCalls (main (sampleEnv kafkaTLSAndSASL)).trace,
      c.dialer ≠ .DefaultDialer ∧ c.dialer.deref.SASLMechanism ≠ none := by
  decide

/-- C2, amended: the TLS configuration and the SASL dialer are selected
together, not exclusively.  When `SSLKey`, `Username` and `Password` are all
non-empty and `scram.Mechanism` returns a mechanism, the one `ConnectKafka`
call of `main` receives both `EnableSSL = true` with the configured files and
a new dialer (not `kafka.DefaultDialer`) carrying that mechanism. -/
theorem tls_and_sasl_selected_together (env : Env) (mechanism : Mechanism)
    (hparse : env.parseErr = none)
    (hkey : env.opts.Kafka.SSLKey ≠ "")
    (huser : env.opts.Kafka.Username ≠ "")
    (hpass : env.opts.Kafka.Password ≠ "")
    (hm : env.scramMechanism .SHA256 env.opts.Kafka.Username env.opts.Kafka.Password
      = .ok mechanism) :
    connectCalls (main env).trace =
      [⟨env.opts.Kafka.Host, env.opts.Kafka.Topic,
        { EnableSSL := true, CertFile := env.opts.Kafka.SSLCert,
          KeyFile := env.opts.Kafka.SSLKey, CACertFile := env.opts.Kafka.SSLCACert },
        .new { Timeout := 10 * timeSecond, DualStack := true,
               SASLMechanism := some mechanism }⟩] := by
  rw [connectCalls_main, hparse]
  simp [huser, hpass, hm, sslConfigBuilt, hkey, saslDialer]

/-- C2, amended, at the sample configuration with everything set. -/
theorem tls_and_sasl_selected_together_witness :
    connectCalls (main (sampleEnv kafkaTLSAndSASL)).trace =
      [⟨"broker:9092", "alerts",
        { EnableSSL := true, CertFile := "client.pem", KeyFile := "client.key",
          CACertFile := "ca.pem" },
        .new { Timeout := 10 * timeSecond, DualStack := true,
               SASLMechanism := some sampleMechanism }⟩] :=
  tls_and_sasl_selected_together (sampleEnv kafkaTLSAndSASL) sampleMechanism rfl
    (by decide) (by decide) (by decide) rfl

/-- C3: with no certificate or key configured, `Username` and `Password` both
non-empty and `scram.Mechanism` succeeding, `main` selects SASL: it calls
`scram.Mechanism` with SHA-256 and exactly that username and password, and the
one `ConnectKafka` call receives a new dialer with `Timeout` of 10 seconds,
`DualStack = true` and the returned mechanism, and an SSL configuration with
`EnableSSL = false`. -/
theorem sasl_selected_without_certificate (env : Env) (mechanism : Mechanism)
    (hparse : env.parseErr = none)
    (hcert : env.opts.Kafka.SSLCert = "")
    (hkey : env.opts.Kafka.SSLKey = "")
    (huser : env.opts.Kafka.Username ≠ "")
    (hpass : env.opts.Kafka.Password ≠ "")
    (hm : env.scramMechanism .SHA256 env.opts.Kafka.Username env.opts.Kafka.Password
      = .ok mechanism) :
    Effect.scramMechanism .SHA256 env.opts.Kafka.Username env.opts.Kafka.Password
      ∈ (main env).trace ∧
    connectCalls (main env).trace =
      [⟨env.opts.Kafka.Host, env.opts.Kafka.Topic,
        { EnableSSL := false, CertFile := "", KeyFile := "", CACertFile := "" },
        .new { Timeout := 10 * timeSecond, DualStack := true,
               SASLMechanism := some mechanism }⟩] := by
  have _ := hcert
  constructor
  · rw [main_scram_ok env mechanism hparse ⟨huser, hpass⟩ hm]
    simp
  · rw [connectCalls_main, hparse]
    simp [huser, hpass, hm, sslConfigBuilt, hkey, saslDialer]

/-- C3 at the sample configuration with username `alice` and password `secret`. -/
theorem sasl_selected_without_certificate_witness :
    Effect.scramMechanism .SHA256 "alice" "secret" ∈ (main (sampleEnv kafkaSASL)).trace ∧
    connectCalls (main (sampleEnv kafkaSASL)).trace =
      [⟨"broker:9092", "alerts",
        { EnableSSL := false, CertFile := "", KeyFile := "", CACertFile := "" },
        .new { Timeout := 10 * timeSecond, DualStack := true,
               SASLMechanism := some sampleMechanism }⟩] :=
  sasl_selected_without_certificate (sampleEnv kafkaSASL) sampleMechanism rfl rfl rfl
    (by decide) (by decide) rfl

/-- C4: with no certificate or key configured and `Username` or `Password`
empty, `main` selects the default mode: the one `ConnectKafka` call receives an
SSL configuration with `EnableSSL = false` and empty `CertFile`, `KeyFile`,
`CACertFile`, and the pointer `kafka.DefaultDialer` itself; `scram.Mechanism`
is never called. -/
theorem default_mode_without_security (env : Env)
    (hparse : env.parseErr = none)
    (hcert : env.opts.Kafka.SSLCert = "")
    (hkey : env.opts.Kafka.SSLKey = "")
    (hcred : env.opts.Kafka.Username = "" ∨ env.opts.Kafka.Password = "") :
    connectCalls (main env).trace =
      [⟨env.opts.Kafka.Host, env.opts.Kafka.Topic,
        { EnableSSL := false, CertFile := "", KeyFile := "", CACertFile := "" },
        .DefaultDialer⟩] ∧
    ∀ e ∈ (main env).trace, e.isScram = false := by
  have _ := hcert
  have hc : ¬ (env.opts.Kafka.Username ≠ "" ∧ env.opts.Kafka.Password ≠ "") := by
    rintro ⟨hu, hp⟩
    rcases hcred with h | h
    · exact hu h
    · exact hp h
  constructor
  · rw [connectCalls_main, hparse]
    simp only [if_neg hc, sslConfigBuilt, hkey, ne_eq, not_true_eq_false, if_false]
  · intro e he
    rw [main_no_credentials env hparse hc] at he
    simp only [List.mem_append, List.mem_cons] at he
    rcases he with he | rfl | he
    · exact (startupCalls_not_serving env e he).2.1
    · rfl
    · exact (servingCalls_not_scram env e he).1

/-- C4 at the sample configuration with a username and no password. -/
theorem default_mode_without_security_witness :
    connectCalls (main (sampleEnv { kafkaPlain with Username := "alice" })).trace =
      [⟨"broker:9092", "alerts",
        { EnableSSL := false, CertFile := "", KeyFile := "", CACertFile := "" },
        .DefaultDialer⟩] ∧
    ∀ e ∈ (main (sampleEnv { kafkaPlain with Username := "alice" })).trace,
      e.isScram = false :=
  default_mode_without_security (sampleEnv { kafkaPlain with Username := "alice" }) rfl rfl rfl
    (Or.inr rfl)

/-- C9: in every `ConnectKafka` call of `main` the SSL configuration has
`EnableSSL = true` exactly when `SSLKey` is non-empty, whatever `SSLCert`,
`SSLCACert`, `Username` and `Password` are; with `SSLKey` empty the three file
names are empty, and with `SSLKey` non-empty they are `SSLCert`, `SSLKey` and
`SSLCACert`. -/
theorem enableSSL_iff_key_configured (env : Env) (c : ConnectCall)
    (hc : c ∈ connectCalls (main env).trace) :
    (c.sslConfig.EnableSSL = true ↔ env.opts.Kafka.SSLKey ≠ "") ∧
    (env.opts.Kafka.SSLKey = "" →
      c.sslConfig.CertFile = "" ∧ c.sslConfig.KeyFile = "" ∧ c.sslConfig.CACertFile = "") ∧
    (env.opts.Kafka.SSLKey ≠ "" →
      c.sslConfig.CertFile = env.opts.Kafka.SSLCert ∧
      c.sslConfig.KeyFile = env.opts.Kafka.SSLKey ∧
      c.sslConfig.CACertFile = env.opts.Kafka.SSLCACert) := by
  have hssl : c.sslConfig = sslConfigBuilt env.opts.Kafka := by
    rw [connectCalls_main] at hc
    split at hc
    · simp at hc
    · split at hc
      · split at hc
        · simp at hc
        · simp only [List.mem_singleton] at hc
          rw [hc]
      · simp only [List.mem_singleton] at hc
        rw [hc]
  rw [hssl]
  unfold sslConfigBuilt
  by_cases hkey : env.opts.Kafka.SSLKey = "" <;> simp [hkey]

/-- C9 at a sample configuration with certificate and CA set but no key: the
call made has `EnableSSL = false` and empty file names. -/
theorem enableSSL_iff_key_configured_witness :
    (false = true ↔
      (sampleEnv { kafkaCertOnly with SSLCACert := "ca.pem" }).opts.Kafka.SSLKey ≠ "") ∧
    ((sampleEnv { kafkaCertOnly with SSLCACert := "ca.pem" }).opts.Kafka.SSLKey = "" →
      "" = "" ∧ "" = "" ∧ "" = "") ∧
    ((sampleEnv { kafkaCertOnly with SSLCACert := "ca.pem" }).opts.Kafka.SSLKey ≠ "" →
      "" = "client.pem" ∧ "" = "" ∧ "" = "ca.pem") :=
  enableSSL_iff_key_configured (sampleEnv { kafkaCertOnly with SSLCACert := "ca.pem" })
    ⟨"broker:9092", "alerts",
      { EnableSSL := false, CertFile := "", KeyFile := "", CACertFile := "" }, .DefaultDialer⟩
    (by decide)

/-! ## Order of the startup effects -/

/-- A trace that consists of non-serving effects `A`, then `C`, then `S`, cut
at a serving effect `e`, is cut inside `S`. -/
theorem cut_inside_serving (A S : List Effect) (C e : Effect)
    (hA : ∀ x ∈ A, x.isServing = false) (hC : C.isServing = false)
    (he : e.isServing = true) :
    ∀ pre post : List Effect, A ++ C :: S = pre ++ e :: post →
      ∃ mid, pre = A ++ C :: mid ∧ S = mid ++ e :: post := by
  induction A with
  | nil =>
    intro pre post h
    cases pre with
    | nil =>
      simp only [List.nil_append, List.cons.injEq] at h
      rw [h.1, he] at hC
      exact absurd hC (by decide)
    | cons p rest =>
      simp only [List.nil_append, List.cons_append, List.cons.injEq] at h
      exact ⟨rest, by rw [h.1]; rfl, h.2⟩
  | cons a A ih =>
    intro pre post h
    cases pre with
    | nil =>
      simp only [List.cons_append, List.nil_append, List.cons.injEq] at h
      have ha := hA a (List.mem_cons_self a A)
      rw [h.1, he] at ha
      exact absurd ha (by decide)
    | cons p rest =>
      simp only [List.cons_append, List.cons.injEq] at h
      obtain ⟨mid, hpre, hS⟩ :=
        ih (fun x hx => hA x (List.mem_cons_of_mem a hx)) rest post h.2
      exact ⟨mid, by rw [h.1, hpre]; rfl, hS⟩

/-- A trace without serving effects cannot be cut at one. -/
theorem no_cut_without_serving (t pre post : List Effect) (e : Effect)
    (ht : ∀ x ∈ t, x.isServing = false) (he : e.isServing = true)
    (h : t = pre ++ e :: post) : False := by
  have hmem : e ∈ t := by
    rw [h]
    exact List.mem_append_right pre (List.mem_cons_self e post)
  have := ht e hmem
  rw [he] at this
  exact absurd this (by decide)

/-- The `ConnectKafka` calls on both sides of a cut of `A ++ C :: S` at a
serving effect, when only `C` is a `ConnectKafka` call. -/
theorem connectCalls_around_cut (A S pre post : List Effect) (C e : Effect) (c : ConnectCall)
    (hA : ∀ x ∈ A, x.isServing = false) (hC : C.isServing = false)
    (he : e.isServing = true) (hcA : connectCalls A = []) (hcC : C.connectCall? = some c)
    (hcS : connectCalls S = []) (h : A ++ C :: S = pre ++ e :: post) :
    connectCalls pre = [c] ∧ connectCalls post = [] := by
  obtain ⟨mid, hpre, hS⟩ := cut_inside_serving A S C e hA hC he pre post h
  rw [hS, connectCalls_append, connectCalls_cons] at hcS
  have hmid : connectCalls mid = [] := (List.append_eq_nil.mp hcS).1
  have hpost : connectCalls post = [] :=
    (List.append_eq_nil.mp (List.append_eq_nil.mp hcS).2).2
  refine ⟨?_, hpost⟩
  rw [hpre, connectCalls_append, connectCalls_cons, hcA, hcC, hmid]
  rfl

theorem servingCalls_not_close (env : Env) : Effect.kafkaWriterClose ∉ servingCalls env :=
  fun h => (servingCalls_not_scram env _ h).2 rfl

theorem startupCalls_not_close (env : Env) : Effect.kafkaWriterClose ∉ startupCalls env :=
  fun h => (startupCalls_not_serving env _ h).2.2 rfl

/-- A deferred call does run when the body it follows returns. -/
theorem defer_runs_on_return (t : List Effect) :
    (Proc.defer (emit .kafkaWriterClose) (⟨t, .done ()⟩ : Proc Unit)).trace
      = t ++ [.kafkaWriterClose] := rfl

/-- A deferred call does not run when the process halts inside the body. -/
theorem defer_skipped_on_halt (t : List Effect) (h : Halt) :
    (Proc.defer (emit .kafkaWriterClose) (⟨t, .halt h⟩ : Proc Unit)).trace = t := rfl

/-- The function `startHttpServer` never returns: it ends in `log.Fatal` or
serves forever. -/
theorem startHttpServer_halts (env : Env) :
    (startHttpServer env).result = .halt (servingHalt env) := by
  unfold startHttpServer servingHalt
  cases env.ListenAndServe env.opts.ServerBind <;> rfl

/-- C5, which the code breaks: `main` defers `exporter.kafkaWriter.Close()`,
but in no run is `Close` called.  After `ConnectKafka` the only way out of
`main` is `log.Fatal` in `startHttpServer`, which exits the process without
running deferred calls; the sample run with no security configured and a
listener that fails to bind calls `ConnectKafka`, ends with exit status 1, and
never calls `Close`. -/
theorem close_never_called :
    (∀ env : Env, Effect.kafkaWriterClose ∉ (main env).trace) ∧
    connectCalls (main (sampleEnv kafkaPlain)).trace =
      [⟨"broker:9092", "alerts",
        { EnableSSL := false, CertFile := "", KeyFile := "", CACertFile := "" },
        .DefaultDialer⟩] ∧
    (main (sampleEnv kafkaPlain)).result = .halt (.exit 1) ∧
    (main (sampleEnv kafkaPlain)).trace.getLast? =
      some (.logFatal ["listen tcp :9097: bind: address already in use"]) := by
  refine ⟨?_, by decide, by decide, by decide⟩
  intro env hmem
  cases h : env.parseErr with
  | some err =>
    rw [main_parse_err env err h] at hmem
    split at hmem <;> simp at hmem
  | none =>
    by_cases hc : env.opts.Kafka.Username ≠ "" ∧ env.opts.Kafka.Password ≠ ""
    · cases hm : env.scramMechanism .SHA256 env.opts.Kafka.Username env.opts.Kafka.Password with
      | error err =>
        rw [main_scram_err env err h hc hm] at hmem
        simp only [List.mem_append, List.mem_cons, List.mem_singleton, List.not_mem_nil,
          or_false, reduceCtorEq, false_or] at hmem
        exact startupCalls_not_close env hmem
      | ok mechanism =>
        rw [main_scram_ok env mechanism h hc hm] at hmem
        simp only [List.mem_append, List.mem_cons, reduceCtorEq, false_or] at hmem
        rcases hmem with hmem | hmem
        · exact startupCalls_not_close env hmem
        · exact servingCalls_not_close env hmem
    · rw [main_no_credentials env h hc] at hmem
      simp only [List.mem_append, List.mem_cons, reduceCtorEq, false_or] at hmem
      rcases hmem with hmem | hmem
      · exact startupCalls_not_close env hmem
      · exact servingCalls_not_close env hmem

/-- C6: wherever the trace of `main` is cut at a handler registration or at
`http.ListenAndServe`, exactly one `ConnectKafka` call lies before the cut,
made with `opts.Kafka.Host` and `opts.Kafka.Topic`, and none lies after it. -/
theorem connectKafka_once_before_serving (env : Env) (pre post : List Effect) (e : Effect)
    (hcut : (main env).trace = pre ++ e :: post)
    (he : e.isServing = true) :
    (∃ sslConfig dialer, connectCalls pre =
      [⟨env.opts.Kafka.Host, env.opts.Kafka.Topic, sslConfig, dialer⟩]) ∧
    connectCalls post = [] := by
  have hstart : ∀ x ∈ startupCalls env, x.isServing = false :=
    fun x hx => (startupCalls_not_serving env x hx).1
  cases h : env.parseErr with
  | some err =>
    rw [main_parse_err env err h] at hcut
    refine (no_cut_without_serving _ pre post e ?_ he hcut).elim
    split <;> decide
  | none =>
    by_cases hc : env.opts.Kafka.Username ≠ "" ∧ env.opts.Kafka.Password ≠ ""
    · cases hm : env.scramMechanism .SHA256 env.opts.Kafka.Username env.opts.Kafka.Password with
      | error err =>
        rw [main_scram_err env err h hc hm] at hcut
        refine (no_cut_without_serving _ pre post e ?_ he hcut).elim
        intro x hx
        simp only [List.mem_append, List.mem_cons, List.mem_singleton, List.not_mem_nil,
          or_false] at hx
        rcases hx with hx | rfl | rfl
        · exact hstart x hx
        · rfl
        · rfl
      | ok mechanism =>
        rw [main_scram_ok env mechanism h hc hm, List.append_cons] at hcut
        have hA : ∀ x ∈ startupCalls env ++
            [Effect.scramMechanism .SHA256 env.opts.Kafka.Username env.opts.Kafka.Password],
            x.isServing = false := by
          intro x hx
          simp only [List.mem_append, List.mem_singleton] at hx
          rcases hx with hx | rfl
          · exact hstart x hx
          · rfl
        have hcA : connectCalls (startupCalls env ++
            [Effect.scramMechanism .SHA256 env.opts.Kafka.Username env.opts.Kafka.Password])
            = [] := by
          rw [connectCalls_append, connectCalls_startupCalls]
          rfl
        have := connectCalls_around_cut _ (servingCalls env) pre post
          (.ConnectKafka env.opts.Kafka.Host env.opts.Kafka.Topic (sslConfigBuilt env.opts.Kafka)
            (saslDialer mechanism)) e _ hA rfl he hcA rfl
          (connectCalls_servingCalls env) hcut
        exact ⟨⟨_, _, this.1⟩, this.2⟩
    · rw [main_no_credentials env h hc] at hcut
      have := connectCalls_around_cut _ (servingCalls env) pre post
        (.ConnectKafka env.opts.Kafka.Host env.opts.Kafka.Topic (sslConfigBuilt env.opts.Kafka)
          .DefaultDialer) e _ hstart rfl he
        (connectCalls_startupCalls env) rfl (connectCalls_servingCalls env) hcut
      exact ⟨⟨_, _, this.1⟩, this.2⟩

/-- C6 at the sample run with no security configured, cut at `http.ListenAndServe`. -/
theorem connectKafka_once_before_serving_witness :
    (∃ sslConfig dialer,
      connectCalls
        [.argparserParse,
         .logInfof "starting alertmanager2kafka v%s (%s; %s; by %v)"
           ["<unknown>", "<unknown>", "go1.20", "Filip Pytloun"],
         .logInfo "\x7b\x7d",
         .logInfof "init exporter" [],
         .exporterInit,
         .ConnectKafka "broker:9092" "alerts"
           { EnableSSL := false, CertFile := "", KeyFile := "", CACertFile := "" } .DefaultDialer,
         .logInfof "starting http server on %s" [":9097"],
         .HandleFunc "/healthz" .healthz,
         .HandleFunc "/webhook" .exporterHttpHandler,
         .Handle "/metrics" .promhttpHandler] =
      [⟨(sampleEnv kafkaPlain).opts.Kafka.Host, (sampleEnv kafkaPlain).opts.Kafka.Topic,
        sslConfig, dialer⟩]) ∧
    connectCalls [.logFatal ["listen tcp :9097: bind: address already in use"]] = [] :=
  connectKafka_once_before_serving (sampleEnv kafkaPlain) _ _ (.ListenAndServe ":9097")
    (by decide) rfl

/-- C7: when `Username` and `Password` are non-empty and `scram.Mechanism`
returns an error, `main` ends the process with `log.Fatalf` (exit status 1):
the last effect is that call, and the trace has no `ConnectKafka` call, no
handler registration and no `http.ListenAndServe`. -/
theorem scram_error_is_fatal (env : Env) (err : String)
    (hparse : env.parseErr = none)
    (huser : env.opts.Kafka.Username ≠ "")
    (hpass : env.opts.Kafka.Password ≠ "")
    (hm : env.scramMechanism .SHA256 env.opts.Kafka.Username env.opts.Kafka.Password
      = .error err) :
    (main env).result = .halt (.exit 1) ∧
    (main env).trace.getLast? = some (.logFatalf "create SASL mechanism err: %s" [err]) ∧
    connectCalls (main env).trace = [] ∧
    ∀ e ∈ (main env).trace, e.isServing = false := by
  have hmain := main_scram_err env err hparse ⟨huser, hpass⟩ hm
  refine ⟨by rw [hmain], ?_, ?_, ?_⟩
  · rw [hmain]
    simp [List.getLast?_append]
  · rw [connectCalls_main, hparse]
    simp [huser, hpass, hm]
  · intro e he
    rw [hmain] at he
    simp only [List.mem_append, List.mem_cons, List.mem_singleton, List.not_mem_nil,
      or_false] at he
    rcases he with he | rfl | rfl
    · exact (startupCalls_not_serving env e he).1
    · rfl
    · rfl

/-- C7 at the sample configuration with username and password set and a
`scram.Mechanism` that fails. -/
theorem scram_error_is_fatal_witness :
    (main (sampleEnvScramFails kafkaSASL)).result = .halt (.exit 1) ∧
    (main (sampleEnvScramFails kafkaSASL)).trace.getLast? =
      some (.logFatalf "create SASL mechanism err: %s" ["invalid username"]) ∧
    connectCalls (main (sampleEnvScramFails kafkaSASL)).trace = [] ∧
    ∀ e ∈ (main (sampleEnvScramFails kafkaSASL)).trace, e.isServing = false :=
  scram_error_is_fatal (sampleEnvScramFails kafkaSASL) "invalid username" rfl
    (by decide) (by decide) rfl

/-! ## The `CallerPrettyfier` closures and the `/healthz` handler -/

/-- The pieces of a split end with a piece free of the separator: the whole
input when it has no separator, else what follows the last separator. -/
theorem splitChars_last (sep : Char) (s : List Char) :
    ∃ init last, splitChars sep s = init ++ [last] ∧ sep ∉ last ∧
      ((init = [] ∧ sep ∉ s ∧ last = s) ∨ (init ≠ [] ∧ ∃ pre, s = pre ++ sep :: last)) := by
  induction s with
  | nil => exact ⟨[], [], rfl, List.not_mem_nil sep, Or.inl ⟨rfl, List.not_mem_nil sep, rfl⟩⟩
  | cons c cs ih =>
    obtain ⟨init, last, hsplit, hlast, hshape⟩ := ih
    by_cases hc : c = sep
    · refine ⟨[] :: init, last, ?_, hlast, Or.inr ⟨List.cons_ne_nil _ _, ?_⟩⟩
      · simp only [splitChars, if_pos hc, hsplit, List.cons_append]
      · rcases hshape with ⟨_, _, hcs⟩ | ⟨_, pre, hcs⟩
        · exact ⟨[], by rw [hc, hcs]; rfl⟩
        · exact ⟨c :: pre, by rw [hcs]; rfl⟩
    · cases init with
      | nil =>
        rcases hshape with ⟨_, hnot, hcs⟩ | ⟨hne, _⟩
        · refine ⟨[], c :: last, ?_, ?_, Or.inl ⟨rfl, ?_, by rw [hcs]⟩⟩
          · simp only [splitChars, if_neg hc, hsplit, List.nil_append]
          · simp only [List.mem_cons, not_or]
            exact ⟨fun h => hc h.symm, hlast⟩
          · simp only [List.mem_cons, not_or]
            exact ⟨fun h => hc h.symm, hnot⟩
        · exact absurd rfl hne
      | cons piece pieces =>
        rcases hshape with ⟨hnil, _, _⟩ | ⟨_, pre, hcs⟩
        · exact absurd hnil (List.cons_ne_nil _ _)
        · refine ⟨(c :: piece) :: pieces, last, ?_, hlast,
            Or.inr ⟨List.cons_ne_nil _ _, c :: pre, by rw [hcs]; rfl⟩⟩
          simp only [splitChars, if_neg hc, hsplit, List.cons_append]

/-- Indexing a slice at `len(s) - 1` yields its last element. -/
theorem sliceIndex_last (init : List String) (last : String) :
    sliceIndex (init ++ [last]) (((init ++ [last]).length : Int) - 1) = some last := by
  have hlen : (((init ++ [last]).length : Int) - 1) = (init.length : Int) := by
    simp
  rw [hlen]
  unfold sliceIndex
  have hcond : (0 : Int) ≤ (init.length : Int) ∧
      (init.length : Int) < ((init ++ [last]).length : Int) := by
    constructor
    · exact Int.ofNat_nonneg _
    · simp
  rw [if_pos hcond]
  simp

/-- C10: the `CallerPrettyfier` closures never panic and agree.  For every
frame, `strings.Split(f.Function, ".")` is non-empty and the index
`s[len(s)-1]` is in range; the function name returned has no `.` and is all of
`f.Function` when that has no `.`, else what follows its last `.`; the file
string is `path.Base(f.File)`, a colon and the decimal `f.Line`; the closure of
the JSON formatter returns the same as the closure of the text formatter, and
so does the prettyfier of every formatter `initArgparser` installs. -/
theorem callerPrettyfier_total (f : Frame) :
    stringsSplit f.Function '.' ≠ [] ∧
    (∃ funcName : String,
      CallerPrettyfierText f = some (funcName, pathBase f.File ++ ":" ++ toString f.Line) ∧
      '.' ∉ funcName.data ∧
      (('.' ∉ f.Function.data ∧ funcName = f.Function) ∨
        ∃ pre : String, f.Function = pre ++ "." ++ funcName)) ∧
    CallerPrettyfierJSON f = CallerPrettyfierText f ∧
    ∀ formatter : Formatter, formatter.CallerPrettyfier f = CallerPrettyfierText f := by
  obtain ⟨init, last, hsplit, hlast, hshape⟩ := splitChars_last '.' f.Function.data
  have hs : stringsSplit f.Function '.' = init.map String.mk ++ [String.mk last] := by
    unfold stringsSplit
    rw [hsplit, List.map_append]
    rfl
  refine ⟨?_, ⟨String.mk last, ?_, hlast, ?_⟩, rfl, ?_⟩
  · rw [hs]
    exact List.append_ne_nil_of_right_ne_nil _ (List.cons_ne_nil _ _)
  · unfold CallerPrettyfierText
    simp only [hs, sliceIndex_last, sprintfFileLine]
  · rcases hshape with ⟨_, hnot, hall⟩ | ⟨_, pre, hpre⟩
    · exact Or.inl ⟨hnot, String.ext hall⟩
    · refine Or.inr ⟨String.mk pre, String.ext ?_⟩
      rw [hpre, String.data_append, String.data_append]
      simp
  · intro formatter
    cases formatter <;> rfl

/-- C8, as stated, fails: the body the `/healthz` handler writes is not the
string `ok`; for a plain `GET /healthz` and a writer whose `Write` succeeds it
is `Ok`, with a capital letter. -/
theorem healthz_body_is_not_lowercase_ok :
    bodyWritten (healthzHandler ⟨fun _ => none⟩ ⟨"GET", "/healthz", [], ""⟩) ≠ "ok" ∧
    bodyWritten (healthzHandler ⟨fun _ => none⟩ ⟨"GET", "/healthz", [], ""⟩) = "Ok" := by
  decide

/-- C8, amended: the handler registered on `/healthz` writes the fixed body
`Ok`: for every response writer and every request the body written is exactly
the string `Ok`, whatever the request (method, URL, headers, body) and whether
or not the write succeeds, and the handler never sets a status code, so the
response keeps the default status 200. -/
theorem healthz_writes_fixed_body (w : ResponseWriter) (r : Request) :
    Handler.closure .healthz = some healthzHandler ∧
    bodyWritten (healthzHandler w r) = "Ok" ∧
    statusCodesSet (healthzHandler w r) = [] ∧
    ∀ r2 : Request, healthzHandler w r2 = healthzHandler w r := by
  refine ⟨rfl, ?_, ?_, fun _ => rfl⟩
  · unfold healthzHandler
    cases w.Write "Ok" <;> rfl
  · unfold healthzHandler
    cases w.Write "Ok" <;> rfl

end Alertmanager2Kafka
